import Mathlib

/-!
Shallow embedding of the fshare job-queue server (src/unnamed/part_000).

The embedding translates the queue/runner core of the JavaScript source:
session records, the submit endpoint validation (lines 574-649), the
sequence-number counter (lines 98-114), the admission controller
`processQueue` (lines 477-517), the session runner `processSession`
(lines 352-462) and the startup recovery block (lines 652-687).

JavaScript conventions used throughout the embedding:
- an object field that may be absent (or hold `undefined`) is an `Option`;
- `x < undefined` and `x === undefined - 1` are NaN comparisons and
  evaluate to `false`;
- a plain JS object whose keys are all integer-like strings (the 6-digit
  session identifiers of `generateSessionId`, line 94-96) enumerates its
  keys in ascending numeric order, regardless of insertion order; the
  Firebase realtime database orders such keys the same way.  Association
  lists of such objects are therefore kept sorted by key (`objInsert`).
-/

namespace Fshare

/-- Line 27: `MAX_CONSECUTIVE_FAILURES = 10`. -/
def MAX_CONSECUTIVE_FAILURES : Nat := 10

/-- Line 28: `MAX_PARALLEL_SESSIONS = 5` (per-worker session limit). -/
def MAX_PARALLEL_SESSIONS : Nat := 5

/-- Line 29: `WORKER_COUNT = process.env.WORKER_COUNT || 4` (default). -/
def WORKER_COUNT : Nat := 4

/-! Status strings used by the source. -/

def stQueued : String := "queued"

def stStarted : String := "started"

def stInProgress : String := "in_progress"

def stCompleted : String := "completed"

def stFailed : String := "failed"

def stTerminated : String := "terminated"

/-! Error and response messages used by the source (string literals from
the cited lines). -/

/-- Line 368. -/
def invalidCookieMsg : String := "Invalid cookie"

/-- Line 378. -/
def tokenFailMsg : String := "Token retrieval failed"

/-- Line 389. -/
def invalidPostMsg : String := "Invalid post ID"

/-- Line 433, template literal with `MAX_CONSECUTIVE_FAILURES` = 10. -/
def terminatedMsg : String := "Terminated due to 10 consecutive failures"

/-- Line 661. -/
def restartMsg : String := "Server restart interrupted this session"

/-- Line 582. -/
def typeErrMsg : String :=
  "Invalid parameter types. Expected: cookie(string or array), url(string), amount(number), interval(number)"

/-- Line 604. -/
def cookieKeysMsg : String := "Invalid Facebook cookie. Must contain authentication tokens."

/-- Line 608. -/
def urlFormatMsg : String := "Invalid Facebook URL format. Must start with https://facebook.com/"

/-- Line 612. -/
def amountMsg : String := "Share amount must be at least 1 or greater than 0"

/-- Line 616. -/
def intervalMsg : String := "Interval must be between 0.1 and 60 seconds"

/-- Line 620. -/
def compoundMsg : String := "For intervals below 1 second, maximum shares is 100"

/-- Line 638. -/
def queuedOkMsg : String := "Sharing process queued successfully"

/-- `Math.floor` on a non-negative JS number (line 629; `amount` has been
validated positive before this is applied). -/
def jsFloor (q : Rat) : Nat := q.floor.toNat

/-- `parseFloat(interval.toFixed(1))` (line 632): round a positive number
to one decimal place (ties away from zero, i.e. up, per `toFixed`). -/
def jsToFixed1 (q : Rat) : Rat := ((q * 10 + 1 / 2).floor : Rat) / 10

/-- A stored session record.  Fields are exactly the keys the source ever
writes on a session/queue object (lines 627-636 create them; `saveProgress`
merges updates).  Numeric fields are `Option` because a JS object key can
be absent.  In particular the record has no meaningful `amount` key: the
submit handler stores the requested count under `totalShares` (line 629)
and nothing ever writes `amount`, so the runner's destructuring
`const { cookie, url, amount, interval } = session` (line 362) reads
`undefined`; the `amount` field below records that key's value. -/
structure SessionRec where
  status : String
  totalShares : Option Nat
  completedShares : Option Nat
  failedShares : Option Nat
  amount : Option Nat
  interval : Option Rat
  sessionNumber : Option Nat
  error : Option String
  url : String
  cookie : String
deriving DecidableEq

/-- Lines 627-636: the queue entry written by the submit endpoint.
`createdAt`/`lastUpdated` timestamps are inert for every claim and are
omitted. -/
def mkQueueEntry (url cookie : String) (amount interval : Rat) (sessionNumber : Nat) :
    SessionRec :=
  { status := stQueued
    totalShares := some (jsFloor amount)
    completedShares := some 0
    failedShares := none
    amount := none
    interval := some (jsToFixed1 interval)
    sessionNumber := some sessionNumber
    error := none
    url := url
    cookie := cookie }

/-- Insertion into a JS object / Firebase node keyed by integer-like
strings: the materialized object enumerates keys in ascending numeric
order, so insertion keeps the association list sorted by key
(overwriting an existing key in place). -/
def objInsert (k : Nat) (v : SessionRec) : List (Nat × SessionRec) → List (Nat × SessionRec)
  | [] => [(k, v)]
  | (k', v') :: rest =>
    if k < k' then (k, v) :: (k', v') :: rest
    else if k = k' then (k, v) :: rest
    else (k', v') :: objInsert k v rest

/-- Key lookup in the association list. -/
def objLookup (k : Nat) : List (Nat × SessionRec) → Option SessionRec
  | [] => none
  | (k', v) :: rest => if k = k' then some v else objLookup k rest

/-- Line 104 / 150 / 484 / 530: a session counts as active when its status
is `started` or `in_progress`. -/
def isActiveStatus (s : String) : Bool := s == stStarted || s == stInProgress

/-- Number of active sessions in a sessions collection. -/
def activeCount (sessions : List (Nat × SessionRec)) : Nat :=
  (sessions.filter fun p => isActiveStatus p.2.status).length

/-- Lines 98-114, `getNextSessionNumber`.  Input: the stored counter value
(`none` = the Firebase ref holds `null`) and the number of active sessions
at the time of the call.  Output: (number returned to the caller, counter
value persisted by the call).  The reset branch runs when there is no
active session and `currentValue !== 0` (note `null !== 0` is true); it
persists `0` and returns `1`.  Otherwise it persists and returns
`(currentValue || 0) + 1`. -/
def getNextSessionNumber (counter : Option Nat) (active : Nat) : Nat × Option Nat :=
  if active = 0 ∧ counter ≠ some 0 then (1, some 0)
  else
    let n := counter.getD 0 + 1
    (n, some n)

/-- The persisted state: the three top-level Firebase collections
(lines 18-20): active sessions, the sequence counter, the queue. -/
structure Store where
  sessions : List (Nat × SessionRec)
  counter : Option Nat
  queue : List (Nat × SessionRec)
deriving DecidableEq

def emptyStore : Store := { sessions := [], counter := none, queue := [] }

/-- A submit request, lines 576-609.  `typesOk` abstracts the parameter
type check (lines 578-583), `cookieOk` the cookie parse plus
required-authentication-marker check (lines 585-605), `urlOk` the URL
regular-expression check (line 607); these are vendor string plumbing with
no bearing on the numeric validation rules the claims are about. -/
structure SubmitReq where
  typesOk : Bool
  cookieOk : Bool
  urlOk : Bool
  amount : Rat
  interval : Rat
  url : String
  cookie : String

/-- The structured JSON reply produced by `apiResponse` (lines 464-474). -/
structure ApiResponse where
  status : Nat
  message : String
  sessionId : Option Nat
  sessionNumber : Option Nat
deriving DecidableEq

/-- Lines 574-649, the `/api/v1/submit` handler.  `newId` is the value
returned by `generateSessionId()` (random, line 623).  Every validation
failure returns a 400 response and leaves the store untouched; on
acceptance the handler draws a sequence number (mutating the counter) and
inserts a queue entry under `newId`. -/
def submit (st : Store) (newId : Nat) (req : SubmitReq) : Store × ApiResponse :=
  if req.typesOk = false then (st, ⟨400, typeErrMsg, none, none⟩)
  else if req.cookieOk = false then (st, ⟨400, cookieKeysMsg, none, none⟩)
  else if req.urlOk = false then (st, ⟨400, urlFormatMsg, none, none⟩)
  else if req.amount ≤ 0 then (st, ⟨400, amountMsg, none, none⟩)
  else if req.interval < 1 / 10 ∨ 60 < req.interval then (st, ⟨400, intervalMsg, none, none⟩)
  else if req.interval < 1 ∧ 100 < req.amount then (st, ⟨400, compoundMsg, none, none⟩)
  else
    let pair := getNextSessionNumber st.counter (activeCount st.sessions)
    let entry := mkQueueEntry req.url req.cookie req.amount req.interval pair.1
    ({ st with counter := pair.2, queue := objInsert newId entry st.queue },
      ⟨200, queuedOkMsg, some newId, some pair.1⟩)

/-- Result of one `processQueue` tick (lines 477-517): the updated store
and the identifier of the session a worker was launched for, if any. -/
structure QueueResult where
  store : Store
  launched : Option Nat
deriving DecidableEq

/-- Lines 477-517, the admission controller.  If the active-session count
has reached `MAX_PARALLEL_SESSIONS * WORKER_COUNT` it does nothing.
Otherwise it takes `Object.keys(queue)[0]` — the first key of the
materialized queue object, i.e. the numerically smallest session id —
moves that entry unmodified into the sessions collection, removes it from
the queue and launches a worker for it. -/
def processQueue (st : Store) : QueueResult :=
  if MAX_PARALLEL_SESSIONS * WORKER_COUNT ≤ activeCount st.sessions then ⟨st, none⟩
  else
    match st.queue with
    | [] => ⟨st, none⟩
    | (k, v) :: rest =>
      ⟨{ st with sessions := objInsert k v st.sessions, queue := rest }, some k⟩

/-- Lines 658-664: a session found `in_progress` at startup is forced to
`failed` with a restart explanation; every other session is untouched. -/
def recoverRec (r : SessionRec) : SessionRec :=
  if r.status = stInProgress then { r with status := stFailed, error := some restartMsg }
  else r

/-- Lines 652-678, the startup block: force-fail the `in_progress`
sessions, then (on the mutated collection) reset the counter to `0` when
no session is active and the counter is not already `0`. -/
def startupRecover (sessions : List (Nat × SessionRec)) (counter : Option Nat) :
    List (Nat × SessionRec) × Option Nat :=
  let sessions' := sessions.map fun p => (p.1, recoverRec p.2)
  let counter' :=
    if activeCount sessions' = 0 ∧ counter ≠ some 0 then some 0 else counter
  (sessions', counter')

/-! ### The session runner -/

/-- An error escaping `processSession`. -/
inductive JsErr where
  | referenceError (name : String)
deriving DecidableEq

/-- Lines 455-461: the catch clause of `processSession` evaluates
`{ status: ..., error: ..., failedShares: amount }`.  `amount` is declared
with `const` inside the `try` block (line 362) and is therefore not in
scope in the catch block, so evaluating the object literal throws
`ReferenceError: amount is not defined` before `saveProgress` is called;
that error escapes the (async) runner as a rejected promise. -/
def catchEscape : JsErr := JsErr.referenceError "amount"

/-- The runner's external collaborators, abstracted: results of
`validateCookie` (line 364), `getFacebookToken` (line 374), `getPostId`
(line 385), `performShare` at (action index, retry index) (line 418), and
whether the broadcast performed by the `k`-th `saveProgress` call of this
run throws (the store write itself catches its own errors, lines 126-132,
but `broadcastActiveSessions` is awaited uncaught inside `saveProgress`,
line 221, after the write). -/
structure Oracle where
  cookieAlive : Bool
  tokenResult : Option String
  postIdResult : Option String
  shareOk : Nat → Nat → Bool
  saveThrows : Nat → Bool

/-- Lines 417-420: up to `maxRetries = 3` immediate attempts, stopping at
the first success. -/
def attemptShare (o : Oracle) (i : Nat) : Bool :=
  o.shareOk i 0 || o.shareOk i 1 || o.shareOk i 2

/-- Line 405, `for (let i = 0; i < amount; i++)`: when `amount` is
`undefined` the comparison is a NaN comparison and is always false, so the
loop body never runs; when it is a number `n` the loop runs `n` times. -/
def loopBound : Option Nat → Nat
  | none => 0
  | some n => n

/-- Line 442, `i % 5 === 0 || i === amount - 1`: with `amount` undefined
the right disjunct compares against NaN and is false. -/
def flushDue (i : Nat) (amt : Option Nat) : Bool :=
  i % 5 == 0 ||
    (match amt with
     | some n => i + 1 == n
     | none => false)

/-- Outcome of a `processSession` run: the session record as last
persisted, the error that escaped the runner (if any), the loop indices
at which an in-loop progress flush (line 443) happened, and the number of
`saveProgress` calls made. -/
structure RunResult where
  sess : SessionRec
  err : Option JsErr
  flushes : List Nat
  saves : Nat
deriving DecidableEq

/-- Lines 405-454, the action loop and the final `completed` flush.
State: `r` iterations remaining, `i` the loop index, `succ`/`fail` the
`successCount`/`failedCount` locals, `consec` the consecutive-failure
counter, `rec` the session record as currently persisted, `k` the index
of the next `saveProgress` call, `fl` the flush log.  The pacing sleep
(lines 406-414) does not touch any of this state and is not modelled.
A `saveProgress` whose broadcast throws leaves the just-written record
persisted and sends control to the catch clause, which itself throws
`catchEscape` (see `catchEscape`). -/
def runLoop (o : Oracle) (amt : Option Nat) (r i succ fail consec : Nat)
    (rec : SessionRec) (k : Nat) (fl : List Nat) : RunResult :=
  match r with
  | 0 =>
    -- lines 450-454: final flush with status `completed`
    let rec1 := { rec with
      status := stCompleted
      completedShares := some succ
      failedShares := some fail }
    if o.saveThrows k then ⟨rec1, some catchEscape, fl, k + 1⟩
    else ⟨rec1, none, fl, k + 1⟩
  | r' + 1 =>
    if attemptShare o i then
      -- lines 422-424: success, reset the consecutive-failure counter
      let succ1 := succ + 1
      if flushDue i amt then
        let rec1 := { rec with completedShares := some succ1, failedShares := some fail }
        if o.saveThrows k then ⟨rec1, some catchEscape, fl ++ [i], k + 1⟩
        else runLoop o amt r' (i + 1) succ1 fail 0 rec1 (k + 1) (fl ++ [i])
      else runLoop o amt r' (i + 1) succ1 fail 0 rec k fl
    else
      -- lines 425-439: failure, maybe trip the circuit breaker
      let fail1 := fail + 1
      let consec1 := consec + 1
      if MAX_CONSECUTIVE_FAILURES ≤ consec1 then
        let rec1 := { rec with
          status := stTerminated
          error := some terminatedMsg
          completedShares := some succ
          failedShares := some fail1 }
        if o.saveThrows k then ⟨rec1, some catchEscape, fl, k + 1⟩
        else ⟨rec1, none, fl, k + 1⟩
      else
        if flushDue i amt then
          let rec1 := { rec with completedShares := some succ, failedShares := some fail1 }
          if o.saveThrows k then ⟨rec1, some catchEscape, fl ++ [i], k + 1⟩
          else runLoop o amt r' (i + 1) succ fail1 consec1 rec1 (k + 1) (fl ++ [i])
        else runLoop o amt r' (i + 1) succ fail1 consec1 rec k fl

/-- Lines 352-462, `processSession`, for a stored session `rec0` (the
not-found early return of line 357 is outside every claim).  Line 362
destructures `amount` from the record — a key the submit handler never
writes (it stores the count under `totalShares`), so `amount` is
`rec0.amount`, which is `none` for every record the system creates.
Setup failures (lines 364-393) write status `failed` with
`failedShares: amount` and return; otherwise the runner writes
`in_progress` and enters the loop. -/
def processSession (o : Oracle) (rec0 : SessionRec) : RunResult :=
  let amount := rec0.amount
  if o.cookieAlive = false then
    let rec1 := { rec0 with
      status := stFailed
      error := some invalidCookieMsg
      failedShares := amount }
    if o.saveThrows 0 then ⟨rec1, some catchEscape, [], 1⟩ else ⟨rec1, none, [], 1⟩
  else
    match o.tokenResult with
    | none =>
      let rec1 := { rec0 with
        status := stFailed
        error := some tokenFailMsg
        failedShares := amount }
      if o.saveThrows 0 then ⟨rec1, some catchEscape, [], 1⟩ else ⟨rec1, none, [], 1⟩
    | some _ =>
      match o.postIdResult with
      | none =>
        let rec1 := { rec0 with
          status := stFailed
          error := some invalidPostMsg
          failedShares := amount }
        if o.saveThrows 0 then ⟨rec1, some catchEscape, [], 1⟩ else ⟨rec1, none, [], 1⟩
      | some _ =>
        -- line 400: saveProgress({ status: 'in_progress' })
        let rec1 := { rec0 with status := stInProgress }
        if o.saveThrows 0 then ⟨rec1, some catchEscape, [], 1⟩
        else runLoop o amount (loopBound amount) 0 0 0 0 rec1 1 []

/-! ### Spec-side definition used to compare queue selection orders -/

/-- Definition following the spec's words (section 4.2): "select the single
oldest-enqueued entry from the queue (first-in-first-out by insertion)" —
the head of the insertion sequence. -/
def specOldestEnqueued (inserts : List (Nat × SessionRec)) : Option Nat :=
  inserts.head?.map Prod.fst

/-- Successive `queueRef.child(id).set(...)` writes (line 627) materialize,
when read back (line 479-480), as an object enumerated in ascending
numeric key order. -/
def materialize (inserts : List (Nat × SessionRec)) : List (Nat × SessionRec) :=
  inserts.foldl (fun q p => objInsert p.1 p.2 q) []

/-! ### Concrete sample inputs used by the claim theorems and witnesses -/

def urlA : String := "https://facebook.com/permalink"

def cookieA : String := "c_user=123; xs=abc"

def tokStr : String := "EAAGtoken"

def postStr : String := "12345"

/-- Executor oracle: setup succeeds, every share attempt succeeds, no
broadcast ever throws. -/
def happyOracle : Oracle :=
  { cookieAlive := true
    tokenResult := some tokStr
    postIdResult := some postStr
    shareOk := fun _ _ => true
    saveThrows := fun _ => false }

/-- Executor oracle: setup succeeds but every share attempt fails. -/
def failShareOracle : Oracle :=
  { happyOracle with shareOk := fun _ _ => false }

/-- Executor oracle: `validateCookie` returns false. -/
def badCookieOracle : Oracle :=
  { happyOracle with cookieAlive := false }

/-- Executor oracle: the broadcast inside the first `saveProgress` call of
the run throws (an unexpected error inside the runner's try block). -/
def throwOracle : Oracle :=
  { happyOracle with saveThrows := fun k => k == 0 }

def qEntry3 : SessionRec := mkQueueEntry urlA cookieA 3 2 1

def qEntry5 : SessionRec := mkQueueEntry urlA cookieA 5 2 1

def qEntry10 : SessionRec := mkQueueEntry urlA cookieA 10 2 1

def qEntry12 : SessionRec := mkQueueEntry urlA cookieA 12 2 1

def qEntry20 : SessionRec := mkQueueEntry urlA cookieA 20 2 1

/-- The record after the runner's `in_progress` flush, used to exercise
the action loop directly. -/
def inProgressOf (r : SessionRec) : SessionRec := { r with status := stInProgress }

def entryA : SessionRec := mkQueueEntry urlA cookieA 10 2 1

def entryB : SessionRec := mkQueueEntry urlA cookieA 10 2 2

/-- Two queue insertions, in insertion order: id 500000 enqueued first,
id 200000 enqueued second. -/
def c5Inserts : List (Nat × SessionRec) := [(500000, entryA), (200000, entryB)]

def c5Store : Store := { sessions := [], counter := some 0, queue := materialize c5Inserts }

/-- A one-entry queue used to witness the amended admission theorem. -/
def wStore : Store := { sessions := [], counter := some 0, queue := [(111111, entryA)] }

/-- An `in_progress` session as stored when the process restarts. -/
def rIn : SessionRec := { mkQueueEntry urlA cookieA 5 2 1 with
  status := stInProgress
  completedShares := some 2
  failedShares := some 1 }

/-- A completed session, untouched by startup recovery. -/
def rDone : SessionRec := { mkQueueEntry urlA cookieA 5 2 2 with
  status := stCompleted
  completedShares := some 5
  failedShares := some 0 }

def demoSessions : List (Nat × SessionRec) := [(100001, rIn), (200002, rDone)]

def req150 : SubmitReq := ⟨true, true, true, 150, 1 / 2, urlA, cookieA⟩

def req100 : SubmitReq := ⟨true, true, true, 100, 1 / 2, urlA, cookieA⟩

def reqOne : SubmitReq := ⟨true, true, true, 1, 2, urlA, cookieA⟩

def reqHalf : SubmitReq := ⟨true, true, true, 1 / 2, 2, urlA, cookieA⟩

/-! ### Helper lemmas -/

theorem objLookup_objInsert_self (k : Nat) (v : SessionRec) (l : List (Nat × SessionRec)) :
    objLookup k (objInsert k v l) = some v := by
  induction l with
  | nil => simp [objInsert, objLookup]
  | cons p rest ih =>
    obtain ⟨k', v'⟩ := p
    by_cases h1 : k < k'
    · simp [objInsert, objLookup, h1]
    · by_cases h2 : k = k'
      · simp [objInsert, objLookup, h1, h2]
      · simp [objInsert, objLookup, h1, h2, ih]

theorem ratFloor_eq_intFloor (q : Rat) : q.floor = ⌊q⌋ :=
  (Rat.floor_def' q).trans Rat.floor_def.symm

/-! ### Claim theorems -/

/-- C1 claim: at every observed point `completed + failed ≤ requested`,
and once terminal, `completed + failed = requested` unless the status is
`terminated` (where `≤` suffices).  The code violates the terminal clause:
the runner reads the loop bound from the absent `amount` key (line 362 vs
line 629, which stores the count as `totalShares`), so the loop never runs
and every admitted session ends `completed` with `completedShares = 0` and
`failedShares = 0`, here against a requested count of 5. -/
theorem C1_terminal_counts_bug :
    (processSession happyOracle qEntry5).sess.status = stCompleted ∧
    (processSession happyOracle qEntry5).sess.completedShares = some 0 ∧
    (processSession happyOracle qEntry5).sess.failedShares = some 0 ∧
    (processSession happyOracle qEntry5).err = none ∧
    qEntry5.totalShares = some 5 := by decide

/-- C2 claim: a session whose share action always fails is `terminated`
after exactly 10 consecutive failed actions.  The code never enters the
action loop (the bound reads the absent `amount` key), so an always-fail
session of 20 requested actions ends `completed` with no failures.  The
last two conjuncts run the loop body itself with the bound the spec
intends (`some 20`): there it does terminate with exactly 10 failed
actions, confirming the breaker logic and locating the bug in the field
name. -/
theorem C2_always_fail_not_terminated :
    (processSession failShareOracle qEntry20).sess.status = stCompleted ∧
    (processSession failShareOracle qEntry20).sess.failedShares = some 0 ∧
    qEntry20.totalShares = some 20 ∧
    (runLoop failShareOracle (some 20) 20 0 0 0 0 (inProgressOf qEntry20) 1 []).sess.status =
      stTerminated ∧
    (runLoop failShareOracle (some 20) 20 0 0 0 0 (inProgressOf qEntry20) 1 []).sess.failedShares =
      some 10 ∧
    (runLoop failShareOracle (some 20) 20 0 0 0 0 (inProgressOf qEntry20) 1 []).sess.error =
      some terminatedMsg := by decide

/-- C3 claim: with no active session the new session gets sequence number
1, and a second session submitted while the first is active gets 2.  The
code gives the second session number 1: the reset branch of
`getNextSessionNumber` (lines 105-108) persists 0 while returning 1, so
the following increment yields 1 again.  Here: fresh counter (`none`), no
active session → first call returns 1 and persists 0; second call with one
active session returns 1, not 2. -/
theorem C3_second_session_number_bug :
    getNextSessionNumber none 0 = (1, some 0) ∧
    getNextSessionNumber (getNextSessionNumber none 0).2 1 = (1, some 1) := by decide

/-- C4 claim: any unexpected error inside the runner is caught and
recorded as terminal `failed`; it never propagates.  The code's catch
clause (lines 455-461) references `amount`, declared inside the `try`
block (line 362) and out of scope in the catch, so the handler itself
throws `ReferenceError` — the session stays `in_progress` and the error
escapes the runner.  Here the broadcast of the first progress flush
throws. -/
theorem C4_catch_reference_error :
    (processSession throwOracle qEntry3).err = some catchEscape ∧
    (processSession throwOracle qEntry3).sess.status = stInProgress ∧
    (processSession throwOracle qEntry3).sess.status ≠ stFailed := by decide

/-- C5 counterexample: the claim says the admission controller selects the
single oldest-enqueued entry (FIFO by insertion).  Enqueue id 500000
first, id 200000 second: the materialized queue object enumerates keys in
ascending numeric order, so `Object.keys(queue)[0]` is 200000 — the
controller promotes the newer entry, not the oldest-enqueued 500000. -/
theorem C5_promotes_smallest_id_not_oldest :
    specOldestEnqueued c5Inserts = some 500000 ∧
    (processQueue c5Store).launched = some 200000 ∧
    (processQueue c5Store).launched ≠ specOldestEnqueued c5Inserts := by decide

/-- C5 amended: each `processQueue` invocation promotes at most one
session; if the active count is at least
`WORKER_COUNT * MAX_PARALLEL_SESSIONS` it promotes nothing; with a
non-empty queue below the ceiling it moves the head of the materialized
queue — the entry with the numerically smallest session id — unmodified
into the session store and removes it from the queue. -/
theorem C5_admission_amended (st : Store) :
    (MAX_PARALLEL_SESSIONS * WORKER_COUNT ≤ activeCount st.sessions →
      processQueue st = ⟨st, none⟩) ∧
    (activeCount st.sessions < MAX_PARALLEL_SESSIONS * WORKER_COUNT → st.queue = [] →
      processQueue st = ⟨st, none⟩) ∧
    (∀ k v rest, activeCount st.sessions < MAX_PARALLEL_SESSIONS * WORKER_COUNT →
      st.queue = (k, v) :: rest →
      processQueue st =
        ⟨{ st with sessions := objInsert k v st.sessions, queue := rest }, some k⟩ ∧
      (st.queue.Pairwise (fun a b => a.1 < b.1) → ∀ p ∈ st.queue, k ≤ p.1)) := by
  refine ⟨?_, ?_, ?_⟩
  · intro h
    unfold processQueue
    rw [if_pos h]
  · intro h hq
    unfold processQueue
    rw [if_neg (Nat.not_le.mpr h), hq]
  · intro k v rest h hq
    constructor
    · unfold processQueue
      rw [if_neg (Nat.not_le.mpr h), hq]
    · intro hs p hp
      rw [hq] at hs hp
      obtain ⟨hall, -⟩ := List.pairwise_cons.mp hs
      rcases List.mem_cons.mp hp with hp | hp
      · rw [hp]
      · exact le_of_lt (hall p hp)

/-- C5 amended, witness: one queued entry below the ceiling is promoted. -/
theorem C5_admission_amended_witness :
    processQueue wStore =
      ⟨{ wStore with sessions := objInsert 111111 entryA [], queue := [] }, some 111111⟩ :=
  ((C5_admission_amended wStore).2.2 111111 entryA [] (by decide) rfl).1

/-- C6 claim: submission validation rejects (status 400, store untouched)
every request whose amount is not positive, whose interval is outside
[0.1, 60], or whose interval is below 1 second with amount above 100;
interval 0.5 with amount 150 draws the specific compound message; amount
100 at interval 0.5 and amount 1 are accepted and enqueued. -/
theorem C6_submit_validation (st : Store) (newId : Nat) (req : SubmitReq) :
    ((req.amount ≤ 0 ∨ req.interval < 1 / 10 ∨ 60 < req.interval ∨
        (req.interval < 1 ∧ 100 < req.amount)) →
      (submit st newId req).1 = st ∧ (submit st newId req).2.status = 400) ∧
    (req.typesOk = true → req.cookieOk = true → req.urlOk = true →
      req.interval = 1 / 2 → req.amount = 150 →
      (submit st newId req).2.status = 400 ∧
      (submit st newId req).2.message = compoundMsg) ∧
    (req.typesOk = true → req.cookieOk = true → req.urlOk = true →
      req.interval = 1 / 2 → req.amount = 100 →
      (submit st newId req).2.status = 200 ∧
      (objLookup newId (submit st newId req).1.queue).isSome = true) ∧
    (req.typesOk = true → req.cookieOk = true → req.urlOk = true →
      req.amount = 1 → 1 / 10 ≤ req.interval → req.interval ≤ 60 →
      (submit st newId req).2.status = 200 ∧
      (objLookup newId (submit st newId req).1.queue).isSome = true) := by
  refine ⟨?_, ?_, ?_, ?_⟩
  · intro h
    unfold submit
    split_ifs with h1 h2 h3 h4 h5 h6
    · exact ⟨rfl, rfl⟩
    · exact ⟨rfl, rfl⟩
    · exact ⟨rfl, rfl⟩
    · exact ⟨rfl, rfl⟩
    · exact ⟨rfl, rfl⟩
    · exact ⟨rfl, rfl⟩
    · exfalso
      rcases h with ha | hi | hi | hia
      · exact h4 ha
      · exact h5 (Or.inl hi)
      · exact h5 (Or.inr hi)
      · exact h6 hia
  · intro ht hc hu hi ha
    simp only [submit, ht, hc, hu, hi, ha]
    norm_num
  · intro ht hc hu hi ha
    simp only [submit, ht, hc, hu, hi, ha]
    norm_num [objLookup_objInsert_self]
  · intro ht hc hu ha h1 h2
    have hiv : ¬(req.interval < 1 / 10 ∨ 60 < req.interval) := by
      push_neg
      exact ⟨h1, h2⟩
    simp only [submit, ht, hc, hu, ha, if_neg hiv]
    norm_num [objLookup_objInsert_self]

/-- C6 witness: interval 0.5 with amount 150 is rejected with the
compound message. -/
theorem C6_submit_validation_witness :
    (submit emptyStore 123456 req150).2.status = 400 ∧
    (submit emptyStore 123456 req150).2.message = compoundMsg :=
  (C6_submit_validation emptyStore 123456 req150).2.1 rfl rfl rfl rfl rfl

/-- C7 claim: a setup failure records terminal `failed` with a message,
zero actions attempted and all requested actions counted as failed.  The
code writes the status and message and attempts nothing, but
`failedShares: amount` (line 369) reads the absent `amount` key, so the
persisted failure count is `undefined` rather than the requested 10 (and
a store write containing `undefined` is rejected by Firebase wholesale).
Shown here for the invalid-cookie case. -/
theorem C7_setup_failure_bug :
    (processSession badCookieOracle qEntry10).sess.status = stFailed ∧
    (processSession badCookieOracle qEntry10).sess.error = some invalidCookieMsg ∧
    (processSession badCookieOracle qEntry10).sess.completedShares = some 0 ∧
    (processSession badCookieOracle qEntry10).flushes = [] ∧
    (processSession badCookieOracle qEntry10).sess.failedShares = none ∧
    qEntry10.totalShares = some 10 := by decide

/-- C8 claim: the loop flushes progress exactly every 5th action and on
the final action.  The code performs no in-loop flush at all: the loop
bound reads the absent `amount` key, so the loop body (including the
flush of lines 441-447) never executes — here with 12 requested actions.
The last conjunct runs the loop with the bound the spec intends
(`some 12`): the flush rule `i % 5 === 0 || i === amount - 1` then fires
at iterations 0, 5, 10 and the final 11. -/
theorem C8_no_flush_bug :
    qEntry12.totalShares = some 12 ∧
    (processSession happyOracle qEntry12).flushes = [] ∧
    (runLoop happyOracle (some 12) 12 0 0 0 0 (inProgressOf qEntry12) 1 []).flushes =
      [0, 5, 10, 11] := by decide

/-- C9 claim: startup recovery marks every stored `in_progress` session
`failed` with a restart-related message, leaves other statuses unchanged,
and resets the counter when no session remains active, so the next
submission gets sequence number 1. -/
theorem C9_startup_recovery (sessions : List (Nat × SessionRec)) (counter : Option Nat) :
    (∀ p ∈ sessions, p.2.status = stInProgress →
      (p.1, { p.2 with status := stFailed, error := some restartMsg }) ∈
        (startupRecover sessions counter).1) ∧
    (∀ p ∈ sessions, p.2.status ≠ stInProgress → p ∈ (startupRecover sessions counter).1) ∧
    (activeCount (startupRecover sessions counter).1 = 0 →
      (startupRecover sessions counter).2 = some 0 ∧
      getNextSessionNumber (startupRecover sessions counter).2 0 = (1, some 1)) := by
  refine ⟨?_, ?_, ?_⟩
  · intro p hp hst
    have hmem := List.mem_map_of_mem (fun q => (q.1, recoverRec q.2)) hp
    simpa [startupRecover, recoverRec, hst] using hmem
  · intro p hp hst
    have hmem := List.mem_map_of_mem (fun q => (q.1, recoverRec q.2)) hp
    simpa [startupRecover, recoverRec, hst] using hmem
  · intro h
    have hc0 : (startupRecover sessions counter).2 = some 0 := by
      simp only [startupRecover] at h ⊢
      by_cases hc : counter = some 0
      · rw [if_neg]
        · exact hc
        · simp [hc]
      · rw [if_pos ⟨h, hc⟩]
    refine ⟨hc0, ?_⟩
    rw [hc0]
    decide

/-- C9 witness: a store holding one `in_progress` and one `completed`
session with counter 7 recovers to `failed`/`completed` with the counter
reset. -/
theorem C9_startup_recovery_witness :
    ((100001, { rIn with status := stFailed, error := some restartMsg }) ∈
      (startupRecover demoSessions (some 7)).1) ∧
    ((200002, rDone) ∈ (startupRecover demoSessions (some 7)).1) ∧
    (startupRecover demoSessions (some 7)).2 = some 0 :=
  ⟨(C9_startup_recovery demoSessions (some 7)).1 (100001, rIn) (by simp [demoSessions]) rfl,
   (C9_startup_recovery demoSessions (some 7)).2.1 (200002, rDone) (by simp [demoSessions])
     (by decide),
   ((C9_startup_recovery demoSessions (some 7)).2.2 (by decide)).1⟩

/-- C10 claim: every accepted submission stores the requested count as
the floor of the submitted amount and the interval rounded to one decimal
place; hence a fractional amount strictly between 0 and 1 passes the
`amount > 0` validation yet yields a stored total share count of 0. -/
theorem C10_floor_and_round (st : Store) (newId : Nat) (req : SubmitReq) :
    ((submit st newId req).2.status = 200 →
      ∃ n, objLookup newId (submit st newId req).1.queue =
          some (mkQueueEntry req.url req.cookie req.amount req.interval n) ∧
        (mkQueueEntry req.url req.cookie req.amount req.interval n).totalShares =
          some (jsFloor req.amount) ∧
        (mkQueueEntry req.url req.cookie req.amount req.interval n).interval =
          some (jsToFixed1 req.interval)) ∧
    (req.typesOk = true → req.cookieOk = true → req.urlOk = true →
      0 < req.amount → req.amount < 1 → 1 / 10 ≤ req.interval → req.interval ≤ 60 →
      (submit st newId req).2.status = 200 ∧
      ∃ e, objLookup newId (submit st newId req).1.queue = some e ∧
        e.totalShares = some 0) := by
  constructor
  · intro h200
    unfold submit at h200 ⊢
    split_ifs at h200 ⊢ with h1 h2 h3 h4 h5 h6
    · simp at h200
    · simp at h200
    · simp at h200
    · simp at h200
    · simp at h200
    · simp at h200
    · exact ⟨(getNextSessionNumber st.counter (activeCount st.sessions)).1,
        objLookup_objInsert_self _ _ _, rfl, rfl⟩
  · intro ht hc hu hpos hlt h1 h2
    have hiv : ¬(req.interval < 1 / 10 ∨ 60 < req.interval) := by
      push_neg
      exact ⟨h1, h2⟩
    have hcomp : ¬(req.interval < 1 ∧ 100 < req.amount) := by
      rintro ⟨-, hx⟩
      linarith
    have hfloor : jsFloor req.amount = 0 := by
      unfold jsFloor
      rw [ratFloor_eq_intFloor, Int.floor_eq_zero_iff.mpr ⟨le_of_lt hpos, hlt⟩]
      rfl
    simp only [submit, ht, hc, hu, if_neg (not_le.mpr hpos), if_neg hiv, if_neg hcomp]
    norm_num
    exact ⟨mkQueueEntry req.url req.cookie req.amount req.interval
        (getNextSessionNumber st.counter (activeCount st.sessions)).1,
      objLookup_objInsert_self _ _ _, by simp [mkQueueEntry, hfloor]⟩

/-- C10 witness: amount 0.5 at interval 2 is accepted and stored with a
total share count of 0. -/
theorem C10_floor_and_round_witness :
    (0 : Rat) < 1 / 2 ∧ (1 : Rat) / 2 < 1 ∧
    ((submit emptyStore 222222 reqHalf).2.status = 200 ∧
      ∃ e, objLookup 222222 (submit emptyStore 222222 reqHalf).1.queue = some e ∧
        e.totalShares = some 0) :=
  ⟨by norm_num, by norm_num,
    (C10_floor_and_round emptyStore 222222 reqHalf).2 rfl rfl rfl (by norm_num [reqHalf])
      (by norm_num [reqHalf]) (by norm_num [reqHalf]) (by norm_num [reqHalf])⟩

end Fshare
